import Mathlib

/-
Shallow embedding of the monthly sales aggregation and stock reporting
logic of the repository (src/main.py, src/dashboard.py, src/inventory.py,
src/reports.py), together with theorems settling the frozen claims about
its natural-language specification.
-/

namespace VapeStore

/-- Stock severity tiers.  The spec's `StockSeverity` enum lists all five
values; the source classifiers (src/inventory.py `check_low_stock`,
src/reports.py `low_stock_report`) only ever emit the first four. -/
inductive Severity where
  | outOfStock
  | critical
  | low
  | warning
  | ok
  deriving DecidableEq

/-- The inline stock classifier of src/inventory.py `check_low_stock`
(lines 230-239).  The source first computes
`ratio = product['quantity'] / product['min_stock']` (Python true division,
which raises `ZeroDivisionError` when `min_stock == 0`, modelled as `none`)
and then branches: `quantity == 0` gives OUT OF STOCK, `ratio <= 0.25`
CRITICAL, `ratio <= 0.5` LOW, and otherwise WARNING. -/
def invClassify (q m : ℤ) : Option Severity :=
  if m = 0 then none
  else some (
    if q = 0 then Severity.outOfStock
    else if (q : ℚ) / (m : ℚ) ≤ 1/4 then Severity.critical
    else if (q : ℚ) / (m : ℚ) ≤ 1/2 then Severity.low
    else Severity.warning)

/-- The stock classifier of the CSV export in src/reports.py
`low_stock_report` (lines 601-609).  It never divides: `quantity == 0`
gives OUT OF STOCK, `quantity <= min_stock * 0.25` CRITICAL,
`quantity <= min_stock * 0.5` LOW, and otherwise WARNING; it is total. -/
def reportStatus (q m : ℤ) : Severity :=
  if q = 0 then Severity.outOfStock
  else if (q : ℚ) ≤ (m : ℚ) * (1/4) then Severity.critical
  else if (q : ℚ) ≤ (m : ℚ) * (1/2) then Severity.low
  else Severity.warning

/-- A product row as far as the low-stock query is concerned
(src/reports.py lines 501-515, src/inventory.py lines 216-220). -/
structure Product where
  quantity : ℤ
  min_stock : ℤ
  deriving DecidableEq

/-- The row selection of the low-stock queries:
`WHERE quantity <= min_stock` (src/reports.py line 513,
src/inventory.py line 218).  The `ORDER BY` clause permutes rows but does
not change which rows are selected. -/
def lowStockRows (ps : List Product) : List Product :=
  ps.filter (fun p => decide (p.quantity ≤ p.min_stock))

/-- The `(p.min_stock - p.quantity) as units_needed` column of the
low-stock query (src/reports.py line 511). -/
def unitsNeeded (p : Product) : ℤ := p.min_stock - p.quantity

/-- The `month_order` dict of src/main.py lines 151-152, looked up with
`.get(month, 0)` (line 157): exact, case-sensitive keys. -/
def monthOrder (m : String) : Nat :=
  match m with
  | "Jan" => 1 | "Feb" => 2 | "Mar" => 3 | "Apr" => 4
  | "May" => 5 | "Jun" => 6 | "Jul" => 7 | "Aug" => 8
  | "Sep" => 9 | "Oct" => 10 | "Nov" => 11 | "Dec" => 12
  | _ => 0

/-- `get_sort_key` of src/main.py lines 154-158:
`(int(year), month_order.get(month[:3], 0))`. -/
def getSortKey (month : String) (year : ℤ) : ℤ × Nat :=
  (year, monthOrder (month.take 3))

/-- Python tuple comparison `<` on such sort keys: first components first,
second components break ties. -/
def tupleLt (a b : ℤ × Nat) : Prop :=
  a.1 < b.1 ∨ (a.1 = b.1 ∧ a.2 < b.2)

instance (a b : ℤ × Nat) : Decidable (tupleLt a b) := by
  unfold tupleLt
  exact inferInstance

/-- The `month_num` dict of src/dashboard.py lines 89-94 (repeated verbatim
at lines 193-198), looked up with `.get(month, '00')`: both full names and
3-letter names, all in title case, and case-sensitive lookup. -/
def monthNumFull (m : String) : String :=
  match m with
  | "January" => "01" | "February" => "02" | "March" => "03" | "April" => "04"
  | "May" => "05" | "June" => "06" | "July" => "07" | "August" => "08"
  | "September" => "09" | "October" => "10" | "November" => "11" | "December" => "12"
  | "Jan" => "01" | "Feb" => "02" | "Mar" => "03" | "Apr" => "04"
  | "Jun" => "06" | "Jul" => "07" | "Aug" => "08"
  | "Sep" => "09" | "Oct" => "10" | "Nov" => "11" | "Dec" => "12"
  | _ => "00"

/-- The token-to-key body of `get_month_year_key`
(src/dashboard.py lines 98-100): `f"{year}-{month_val}"` with
`month_val = month_num.get(month, '00')`.  This is the spec's
`parse(monthToken, yearToken)`. -/
def keyOfTokens (month year : String) : String :=
  year ++ "-" ++ monthNumFull month

/-- The whitespace set of Python's `str.split()` with no argument
(ASCII part). -/
def pyIsSpace (c : Char) : Bool :=
  c = ' ' || c = '\t' || c = '\n' || c = '\x0b' || c = '\x0c' || c = '\r'

/-- Helper for `pySplit`: walk the characters, accumulating the current
token in reverse; whitespace runs separate tokens and empty tokens are
discarded, as Python's `str.split()` does. -/
def splitWsAux : List Char → List Char → List (List Char)
  | [], acc => if acc.isEmpty then [] else [acc.reverse]
  | c :: cs, acc =>
    if pyIsSpace c then
      if acc.isEmpty then splitWsAux cs [] else acc.reverse :: splitWsAux cs []
    else splitWsAux cs (c :: acc)

/-- Python's `month_year_str.split()` (src/dashboard.py line 96). -/
def pySplit (s : String) : List String :=
  (splitWsAux s.data []).map fun cs => String.mk cs

/-- `get_month_year_key` of src/dashboard.py lines 87-101 (local copy at
lines 202-208): a label splitting into exactly two tokens maps to
"year-MM" (MM = "00" for an unknown month token); every other input maps
to the empty string.  Total: no input raises. -/
def getMonthYearKey (s : String) : String :=
  match pySplit s with
  | [month, year] => keyOfTokens month year
  | _ => ""

/-- Python string comparison `<`: lexicographic on code points. -/
def lexLt : List Char → List Char → Bool
  | [], [] => false
  | [], _ :: _ => true
  | _ :: _, [] => false
  | a :: as, b :: bs =>
    if a.toNat < b.toNat then true
    else if a.toNat = b.toNat then lexLt as bs
    else false

/-- Python string comparison `<` on the embedded strings. -/
def pyStrLt (s t : String) : Bool := lexLt s.data t.data

/-- One sales row as the aggregation surfaces see it (source column names
'Name', 'Category Name', 'Sold', 'Net Sales'). -/
structure SalesRow where
  name : String
  category : String
  sold : ℤ
  netSales : ℚ
  deriving DecidableEq

/-- The TOTAL-row filter `df[df['Category Name'] != 'TOTAL']` applied
before every aggregation (src/dashboard.py line 52; src/main.py lines 60,
88 and 170): a case-sensitive, exact string comparison. -/
def filterTotal (rows : List SalesRow) : List SalesRow :=
  rows.filter fun r => r.category != "TOTAL"

/-- The month-over-month growth computation of src/main.py lines 204-220
for one metric column: for each adjacent pair of monthly totals, the
growth percentage `((curr - prev) / prev) * 100` when `prev > 0`, and the
"N/A" sentinel (modelled as `none`) otherwise. -/
def growthRates : List ℚ → List (Option ℚ)
  | prev :: curr :: rest =>
      (if prev > 0 then some ((curr - prev) / prev * 100) else none)
        :: growthRates (curr :: rest)
  | _ => []

/-- A float as pandas produces it in these computations: an exact value
(every value arising here is exactly representable), a signed infinity,
or NaN. -/
inductive PyFloat where
  | val (q : ℚ)
  | pinf
  | ninf
  | nan
  deriving DecidableEq

/-- Elementwise float division as pandas/numpy perform it
(src/dashboard.py lines 424, 497, 607): a zero denominator yields +inf,
-inf or NaN according to the numerator's sign instead of raising. -/
def pdDiv (a b : ℚ) : PyFloat :=
  if b ≠ 0 then PyFloat.val (a / b)
  else if 0 < a then PyFloat.pinf
  else if a < 0 then PyFloat.ninf
  else PyFloat.nan

/-- `pd.notna`: every float is "not NA" — infinities included — except
NaN (used by the display formatters, e.g. src/dashboard.py lines 383,
474). -/
def notna (x : PyFloat) : Bool := x != PyFloat.nan

/-- One step of `Series.pct_change() * 100` (src/dashboard.py lines
297-298): `(curr / prev - 1) * 100`, with float semantics on a zero
base. -/
def pctStep (prev curr : ℚ) : PyFloat :=
  if prev ≠ 0 then PyFloat.val ((curr / prev - 1) * 100)
  else if 0 < curr then PyFloat.pinf
  else if curr < 0 then PyFloat.ninf
  else PyFloat.nan

/-- Helper for `pctChange100`: steps through adjacent pairs. -/
def pctChangeAux : ℚ → List ℚ → List PyFloat
  | _, [] => []
  | prev, curr :: rest => pctStep prev curr :: pctChangeAux curr rest

/-- `Series.pct_change() * 100` over a column of monthly totals
(src/dashboard.py lines 297-298): the first entry is NaN and each later
entry is the percentage change from its predecessor. -/
def pctChange100 : List ℚ → List PyFloat
  | [] => []
  | x :: rest => PyFloat.nan :: pctChangeAux x rest

/-- The Dashboard Overview average-price metric (src/dashboard.py line
173): `total_sales / total_units if total_units > 0 else 0`. -/
def overviewAvgPrice (totalSales totalUnits : ℚ) : ℚ :=
  if totalUnits > 0 then totalSales / totalUnits else 0

/-- A product aggregate row of the Top Products page (src/dashboard.py
lines 601-604): Net Sales and Sold summed per (Name, Category Name). -/
structure ProdAgg where
  name : String
  category : String
  netSales : ℚ
  sold : ℤ
  deriving DecidableEq

/-- The 'Avg Price' column (src/dashboard.py line 607):
`Net Sales / Sold`. -/
def avgKey (r : ProdAgg) : ℚ := r.netSales / (r.sold : ℚ)

/-- What `sort_values('Avg Price', ascending=False)` with the default
`kind='quicksort'` (src/dashboard.py lines 616, 646, 679) guarantees
about its output: it is a permutation of the input rows that is
descending in the key.  The default quicksort is documented as not
stable, so the library contract pins the output down only up to the
order of tied rows; this relation holds of every output the call may
produce, and nothing stronger is promised. -/
def sortValuesDescAdmissible (l out : List ProdAgg) : Prop :=
  out.Perm l ∧ out.Pairwise fun a b => avgKey b ≤ avgKey a

/-- The ranking of tab 3 of the Top Products page (src/dashboard.py line
679): `product_data[product_data['Sold'] >= min_units]` then
`.sort_values('Avg Price', ascending=False).head(top_n)`.  `out` is an
admissible result of that chain: the threshold filter runs first, then
an admissible descending sort, then the head cut. -/
def topByMarginAdmissible (rows : List ProdAgg) (minUnits : ℤ) (n : Nat)
    (out : List ProdAgg) : Prop :=
  ∃ sorted,
    sortValuesDescAdmissible (rows.filter fun r => decide (minUnits ≤ r.sold)) sorted
    ∧ out = sorted.take n

/-- The twelve full month names in the title case the dashboard table
lists them in. -/
def monthsFull : List String :=
  ["January", "February", "March", "April", "May", "June", "July", "August",
   "September", "October", "November", "December"]

/-- The twelve 3-letter month names in the title case both tables list
them in. -/
def monthsAbbr : List String :=
  ["Jan", "Feb", "Mar", "Apr", "May", "Jun", "Jul", "Aug",
   "Sep", "Oct", "Nov", "Dec"]

/-- The same month tokens in lower case: none of them is a key of either
lookup table. -/
def monthsLower : List String :=
  ["january", "february", "march", "april", "may", "june", "july", "august",
   "september", "october", "november", "december",
   "jan", "feb", "mar", "apr", "jun", "jul", "aug", "sep", "oct", "nov", "dec"]

/-- Claim C4 counterexample: on an input with ratio `quantity / minStock`
strictly above 1 the source classifier returns WARNING, not OK — the final
`else` branch of src/inventory.py lines 234-239 is WARNING and no branch
ever produces OK. -/
theorem stock_ratio_above_one : invClassify 20 10 = some Severity.warning
    ∧ Severity.warning ≠ Severity.ok := by
  constructor
  · norm_num [invClassify]
  · decide

/-- Claim C4 (amended): for `minStock > 0` the classifier returns
OUT_OF_STOCK iff quantity = 0, CRITICAL iff quantity ≠ 0 and
ratio ≤ 0.25, LOW iff 0.25 < ratio ≤ 0.50 (boundaries inclusive in the
more severe tier), and WARNING iff ratio > 0.50 with no upper bound; it
never returns OK. -/
theorem classify_tiers (q m : ℤ) (hm : 0 < m) :
    (invClassify q m = some Severity.outOfStock ↔ q = 0)
    ∧ (invClassify q m = some Severity.critical ↔ q ≠ 0 ∧ (q : ℚ) / m ≤ 1/4)
    ∧ (invClassify q m = some Severity.low ↔ 1/4 < (q : ℚ) / m ∧ (q : ℚ) / m ≤ 1/2)
    ∧ (invClassify q m = some Severity.warning ↔ 1/2 < (q : ℚ) / m)
    ∧ invClassify q m ≠ some Severity.ok := by
  have hm0 : m ≠ 0 := ne_of_gt hm
  unfold invClassify
  simp only [hm0, if_false]
  split_ifs with h1 h2 h3 <;> simp_all <;> linarith

/-- Witness for classify_tiers at quantity 5, minStock 10 (ratio 0.5,
which lies in the LOW tier). -/
theorem classify_tiers_witness :
    (0:ℤ) < 10 ∧ invClassify 5 10 ≠ some Severity.ok :=
  ⟨by decide, (classify_tiers 5 10 (by decide)).2.2.2.2⟩

/-- Claim C8 counterexample: a strictly negative `minStock` does not make
the classifier fail — `invClassify 1 (-4)` computes ratio -1/4 ≤ 0.25 and
returns CRITICAL, so the call does not fail for every non-positive
minStock. -/
theorem threshold_negative_no_failure :
    invClassify 1 (-4) = some Severity.critical ∧ invClassify 1 (-4) ≠ none := by
  have h : invClassify 1 (-4) = some Severity.critical := by norm_num [invClassify]
  exact ⟨h, by rw [h]; simp⟩

/-- Claim C8 (amended): the inventory classifier fails (with a
ZeroDivisionError from `quantity / min_stock`, not a dedicated
InvalidThreshold) exactly when minStock = 0; a strictly negative minStock
is accepted and classified without failure. -/
theorem threshold_failure_behavior (q m : ℤ) :
    (invClassify q m = none ↔ m = 0) ∧ (m < 0 → ∃ s, invClassify q m = some s) := by
  constructor
  · unfold invClassify
    split_ifs with h <;> simp [h]
  · intro hm
    have hne : m ≠ 0 := ne_of_lt hm
    unfold invClassify
    simp only [hne, if_false]
    exact ⟨_, rfl⟩

/-- Witness for threshold_failure_behavior at minStock -4. -/
theorem threshold_failure_witness :
    (-4:ℤ) < 0 ∧ ∃ s, invClassify 1 (-4) = some s :=
  ⟨by decide, (threshold_failure_behavior 1 (-4)).2 (by decide)⟩

/-- Claim C9: every row selected by the low-stock query satisfies
`quantity <= min_stock`, hence its `units_needed` column is non-negative,
and neither classifier can label a selected row OK. -/
theorem low_stock_invariant (ps : List Product) (p : Product)
    (hp : p ∈ lowStockRows ps) :
    p.quantity ≤ p.min_stock ∧ 0 ≤ unitsNeeded p
    ∧ reportStatus p.quantity p.min_stock ≠ Severity.ok
    ∧ invClassify p.quantity p.min_stock ≠ some Severity.ok := by
  have hq : p.quantity ≤ p.min_stock :=
    of_decide_eq_true (List.mem_filter.mp hp).2
  refine ⟨hq, ?_, ?_, ?_⟩
  · unfold unitsNeeded; omega
  · unfold reportStatus; split_ifs <;> simp
  · unfold invClassify; split_ifs <;> simp

/-- Witness for low_stock_invariant on a concrete one-row inventory. -/
theorem low_stock_invariant_witness :
    (⟨2, 10⟩ : Product) ∈ lowStockRows [⟨2, 10⟩]
    ∧ reportStatus 2 10 ≠ Severity.ok :=
  ⟨by decide, (low_stock_invariant [⟨2, 10⟩] ⟨2, 10⟩ (by decide)).2.2.1⟩

/-- Claim C1: the chronological sort key orders by year first and month
index second, so Dec 2023 sorts strictly before Jan 2024, and any period
of an earlier year sorts strictly before every period of a later year,
whatever the month tokens are. -/
theorem chronological_order :
    tupleLt (getSortKey "Dec" 2023) (getSortKey "Jan" 2024)
    ∧ ∀ (m1 : String) (y1 : ℤ) (m2 : String) (y2 : ℤ),
        y1 < y2 → tupleLt (getSortKey m1 y1) (getSortKey m2 y2) := by
  constructor
  · exact Or.inl (by norm_num [getSortKey])
  · intro m1 y1 m2 y2 h
    exact Or.inl h

/-- Witness for chronological_order across a year boundary with months
whose labels sort the other way alphabetically. -/
theorem chronological_order_witness :
    (2020:ℤ) < 2021 ∧ tupleLt (getSortKey "Mar" 2020) (getSortKey "Feb" 2021) :=
  ⟨by decide, chronological_order.2 "Mar" 2020 "Feb" 2021 (by decide)⟩

/-- Claim C6 counterexample: parsing is case-sensitive, not
case-insensitive — the lowercase token "jan" misses every key of the
dashboard month table and falls to the "00" default, so it produces a
different key than "January"; likewise "january" gets month index 0 in
main.py's sort key while "January" gets 1. -/
theorem month_case_counterexample :
    keyOfTokens "jan" "2024" ≠ keyOfTokens "January" "2024"
    ∧ getSortKey "january" 2024 ≠ getSortKey "January" 2024 := by
  constructor
  · decide
  · decide

/-- Claim C6 (amended): in the exact title case the tables list, the
full-name and 3-letter tokens of each month map to the same key in both
the dashboard table and main.py's truncating sort key; lowercase
variants are not recognized and map to the unknown-month defaults
("00" and 0). -/
theorem month_token_case_sensitivity :
    (∀ p ∈ monthsFull.zip monthsAbbr,
        monthNumFull p.1 = monthNumFull p.2
        ∧ monthNumFull p.1 ≠ "00"
        ∧ monthOrder (p.1.take 3) = monthOrder (p.2.take 3)
        ∧ monthOrder (p.2.take 3) ≠ 0)
    ∧ (∀ m ∈ monthsLower, monthNumFull m = "00" ∧ monthOrder (m.take 3) = 0) := by
  constructor
  · decide
  · decide

/-- Witness for month_token_case_sensitivity at January. -/
theorem month_token_case_witness :
    ("January", "Jan") ∈ monthsFull.zip monthsAbbr
    ∧ monthNumFull "January" = monthNumFull "Jan" :=
  ⟨by decide, (month_token_case_sensitivity.1 ("January", "Jan") (by decide)).1⟩

/-- Every value of the dashboard month table is "00" or one of the twelve
two-digit month codes. -/
theorem monthNumFull_cases (m : String) :
    monthNumFull m = "00"
    ∨ monthNumFull m ∈ ["01", "02", "03", "04", "05", "06",
                        "07", "08", "09", "10", "11", "12"] := by
  unfold monthNumFull
  split <;> simp

/-- Comparing two strings with a common prefix compares the suffixes. -/
theorem lexLt_append (p a b : List Char) : lexLt (p ++ a) (p ++ b) = lexLt a b := by
  induction p with
  | nil => rfl
  | cons c cs ih => simp [lexLt, ih]

/-- The empty string strictly precedes every nonempty string. -/
theorem pyStrLt_empty (t : String) (h : t ≠ "") : pyStrLt "" t = true := by
  cases t with
  | mk data =>
    cases data with
    | nil => exact absurd rfl h
    | cons c cs => rfl

/-- A "year-00" key strictly precedes the key of any recognized month of
the same year. -/
theorem key00_lt (y v : String)
    (hv : v ∈ ["01", "02", "03", "04", "05", "06",
               "07", "08", "09", "10", "11", "12"]) :
    pyStrLt (y ++ "-00") (y ++ "-" ++ v) = true := by
  have h1 : (y ++ "-00").data = y.data ++ "-00".data := String.data_append _ _
  have h2 : (y ++ "-" ++ v).data = y.data ++ ("-" ++ v).data := by
    rw [String.append_assoc, String.data_append]
  unfold pyStrLt
  rw [h1, h2, lexLt_append]
  fin_cases hv <;> decide

/-- Claim C10: the chronological sort-key function for month labels is a
total function on strings: a label that does not split into exactly two
tokens maps to "" (which sorts strictly before every nonempty key); a
two-token label maps to "year-MM"; and an unrecognized month token gets
MM = "00", which sorts strictly before the code of each of the twelve
real months of the same year. -/
theorem month_key_totality :
    (∀ s : String, (pySplit s).length ≠ 2 → getMonthYearKey s = "")
    ∧ (∀ s m y : String, pySplit s = [m, y] →
        getMonthYearKey s = y ++ "-" ++ monthNumFull m)
    ∧ (∀ s : String, getMonthYearKey s ≠ "" → pyStrLt "" (getMonthYearKey s) = true)
    ∧ (∀ y m : String, monthNumFull m ≠ "00" →
        pyStrLt (y ++ "-00") (y ++ "-" ++ monthNumFull m) = true) := by
  refine ⟨?_, ?_, ?_, ?_⟩
  · intro s h
    unfold getMonthYearKey
    split
    next m y heq => rw [heq] at h; simp at h
    next => rfl
  · intro s m y h
    simp [getMonthYearKey, keyOfTokens, h]
  · intro s h
    exact pyStrLt_empty _ h
  · intro y m h
    rcases monthNumFull_cases m with h0 | hv
    · exact absurd h0 h
    · exact key00_lt y (monthNumFull m) hv

/-- Witness for month_key_totality: a one-token label keys to "", a
two-token label with an unknown month keys to "year-00", and "2024-00"
precedes the January key of 2024. -/
theorem month_key_totality_witness :
    getMonthYearKey "only-one-token" = ""
    ∧ getMonthYearKey "Foo 2024" = "2024" ++ "-" ++ monthNumFull "Foo"
    ∧ pyStrLt ("2024" ++ "-00") ("2024" ++ "-" ++ monthNumFull "Jan") = true :=
  ⟨month_key_totality.1 "only-one-token" (by decide),
   month_key_totality.2.1 "Foo 2024" "Foo" "2024" (by decide),
   month_key_totality.2.2.2 "2024" "Jan" (by decide)⟩

/-- Claim C5: the normalization filter drops exactly the rows whose
category is the literal "TOTAL" (case-sensitive exact match): a "TOTAL"
row is never kept, and every other row — including categories that merely
contain "total" in some letter case, such as "Subtotal" — is kept. -/
theorem total_row_filter (rows : List SalesRow) (r : SalesRow) :
    (r ∈ filterTotal rows ↔ r ∈ rows ∧ r.category ≠ "TOTAL")
    ∧ (r.category = "TOTAL" → r ∉ filterTotal rows)
    ∧ (r ∈ rows → r.category = "Subtotal" → r ∈ filterTotal rows) := by
  have hiff : r ∈ filterTotal rows ↔ r ∈ rows ∧ r.category ≠ "TOTAL" := by
    simp [filterTotal, List.mem_filter, bne_iff_ne]
  refine ⟨hiff, ?_, ?_⟩
  · intro h hm
    exact (hiff.mp hm).2 h
  · intro hr hc
    exact hiff.mpr ⟨hr, by rw [hc]; decide⟩

/-- Witness for total_row_filter: on a concrete frame, the "Subtotal" row
survives the filter and the "TOTAL" row is dropped. -/
theorem total_row_filter_witness :
    (⟨"p", "Subtotal", 1, 5⟩ : SalesRow)
      ∈ filterTotal [⟨"t", "TOTAL", 9, 9⟩, ⟨"p", "Subtotal", 1, 5⟩]
    ∧ (⟨"t", "TOTAL", 9, 9⟩ : SalesRow)
      ∉ filterTotal [⟨"t", "TOTAL", 9, 9⟩, ⟨"p", "Subtotal", 1, 5⟩] :=
  ⟨(total_row_filter _ _).2.2
      (List.mem_cons_of_mem _ (List.mem_cons_self _ _)) rfl,
   (total_row_filter _ _).2.1 rfl⟩

/-- Claim C2 evaluation: on the monthly totals [100, 150, 0, 50] the
growth computation of src/main.py returns exactly n-1 = 3 points,
[+50%, -100%, N/A], as the claim states; the dashboard Monthly Analysis
`pct_change` column instead contains +infinity — not the N/A sentinel —
for the 0 → 50 transition, and `pd.notna(+inf)` is true, so the table
formatter renders it "inf%" rather than "N/A". -/
theorem growth_zero_base_eval :
    growthRates [100, 150, 0, 50] = [some 50, some (-100), none]
    ∧ pctChange100 [100, 150, 0, 50]
        = [PyFloat.nan, PyFloat.val 50, PyFloat.val (-100), PyFloat.pinf]
    ∧ notna PyFloat.pinf = true := by
  refine ⟨?_, ?_, rfl⟩
  · norm_num [growthRates]
  · norm_num [pctChange100, pctChangeAux, pctStep]

/-- Claim C3 counterexample: with totalUnits = 0 the Dashboard Overview
reports average price 0 — the number 0, not an undefined sentinel
(src/dashboard.py line 173: `... if total_units > 0 else 0`). -/
theorem overview_avg_zero : overviewAvgPrice 5 0 = 0 := by
  norm_num [overviewAvgPrice]

/-- Claim C3 (amended): when totalUnits > 0 both surfaces report
totalSales / totalUnits; when totalUnits = 0 the pandas-based product and
category tables produce NaN (rendered "N/A") only when totalSales is also
0, produce +infinity when totalSales > 0 (rendered "$inf", since
pd.notna(+inf) holds), and the Dashboard Overview metric reports the
number 0. -/
theorem avg_price_behavior (s u : ℚ) :
    (0 < u → overviewAvgPrice s u = s / u ∧ pdDiv s u = PyFloat.val (s / u))
    ∧ overviewAvgPrice s 0 = 0
    ∧ pdDiv 0 0 = PyFloat.nan
    ∧ (0 < s → pdDiv s 0 = PyFloat.pinf ∧ notna (pdDiv s 0) = true) := by
  refine ⟨?_, ?_, ?_, ?_⟩
  · intro hu
    constructor
    · simp [overviewAvgPrice, hu]
    · simp [pdDiv, ne_of_gt hu]
  · simp [overviewAvgPrice]
  · simp [pdDiv]
  · intro hs
    constructor <;> simp [pdDiv, hs, notna, not_lt_of_gt hs]

/-- Witness for avg_price_behavior at totalSales 5, totalUnits 2. -/
theorem avg_price_behavior_witness :
    (0:ℚ) < 2 ∧ overviewAvgPrice 5 2 = 5 / 2 :=
  ⟨zero_lt_two, ((avg_price_behavior 5 2).1 zero_lt_two).1⟩

/-- Claim C7 counterexample: the library contract the ranking relies on
does not break ties by insertion order.  On a two-row input whose rows
tie on average price, the output with the rows swapped is admissible for
`sort_values('Avg Price', ascending=False)` with the default
`kind='quicksort'` (a descending permutation is all that is promised),
so insertion-order tie-breaking — and hence a deterministic tie order —
is not a property of the program. -/
theorem top_by_margin_tie_nondeterminism :
    topByMarginAdmissible [⟨"a", "c", 10, 2⟩, ⟨"b", "c", 10, 2⟩] 0 2
      [⟨"b", "c", 10, 2⟩, ⟨"a", "c", 10, 2⟩]
    ∧ ([⟨"b", "c", 10, 2⟩, ⟨"a", "c", 10, 2⟩] : List ProdAgg)
      ≠ [⟨"a", "c", 10, 2⟩, ⟨"b", "c", 10, 2⟩] := by
  constructor
  · refine ⟨[⟨"b", "c", 10, 2⟩, ⟨"a", "c", 10, 2⟩], ⟨?_, ?_⟩, rfl⟩
    · have hf : ([⟨"a", "c", 10, 2⟩, ⟨"b", "c", 10, 2⟩] : List ProdAgg).filter
          (fun r => decide ((0:ℤ) ≤ r.sold))
          = [⟨"a", "c", 10, 2⟩, ⟨"b", "c", 10, 2⟩] := rfl
      rw [hf]
      exact List.Perm.swap _ _ _
    · refine List.Pairwise.cons ?_ (by simp)
      intro x hx
      rw [List.mem_singleton] at hx
      subst hx
      exact le_refl _
  · intro h
    injection h with h1 _
    injection h1 with hn _ _ _
    exact absurd hn (by decide)

/-- Claim C7 (amended): every output the ranking chain of tab 3 can
produce satisfies the parts of the contract the source does guarantee:
a row below the units threshold never appears — even one that would rank
first by average price — and the output is descending in average price.
The tie order among equal keys is all the sort contract leaves open. -/
theorem top_by_margin_amended (rows : List ProdAgg) (u : ℤ) (n : Nat)
    (out : List ProdAgg) (h : topByMarginAdmissible rows u n out) :
    (∀ r ∈ out, u ≤ r.sold)
    ∧ out.Pairwise (fun a b => avgKey b ≤ avgKey a)
    ∧ (∀ r ∈ rows, r.sold < u → r ∉ out) := by
  obtain ⟨sorted, ⟨hperm, hsort⟩, hout⟩ := h
  have hmem : ∀ r ∈ out, u ≤ r.sold := by
    intro r hr
    rw [hout] at hr
    have h1 : r ∈ sorted := List.take_subset n sorted hr
    have h2 : r ∈ rows.filter fun r => decide (u ≤ r.sold) := hperm.mem_iff.mp h1
    exact of_decide_eq_true (List.mem_filter.mp h2).2
  refine ⟨hmem, ?_, ?_⟩
  · rw [hout]
    exact List.Pairwise.sublist (List.take_sublist _ _) hsort
  · intro r _ hlt hin
    exact absurd (hmem r hin) (not_le.mpr hlt)

/-- Witness for top_by_margin_amended: on a concrete admissible run, the
row with the highest average price sits below the units threshold and is
excluded from the ranking. -/
theorem top_by_margin_amended_witness :
    topByMarginAdmissible
      [⟨"lux", "c", 100, 2⟩, ⟨"p1", "c", 60, 6⟩, ⟨"p2", "c", 60, 6⟩] 5 2
      [⟨"p1", "c", 60, 6⟩, ⟨"p2", "c", 60, 6⟩]
    ∧ (⟨"lux", "c", 100, 2⟩ : ProdAgg)
      ∉ [(⟨"p1", "c", 60, 6⟩ : ProdAgg), ⟨"p2", "c", 60, 6⟩] := by
  have hadm : topByMarginAdmissible
      [⟨"lux", "c", 100, 2⟩, ⟨"p1", "c", 60, 6⟩, ⟨"p2", "c", 60, 6⟩] 5 2
      [⟨"p1", "c", 60, 6⟩, ⟨"p2", "c", 60, 6⟩] := by
    refine ⟨[⟨"p1", "c", 60, 6⟩, ⟨"p2", "c", 60, 6⟩], ⟨?_, ?_⟩, rfl⟩
    · have hf : ([⟨"lux", "c", 100, 2⟩, ⟨"p1", "c", 60, 6⟩,
          ⟨"p2", "c", 60, 6⟩] : List ProdAgg).filter
          (fun r => decide ((5:ℤ) ≤ r.sold))
          = [⟨"p1", "c", 60, 6⟩, ⟨"p2", "c", 60, 6⟩] := rfl
      rw [hf]
    · refine List.Pairwise.cons ?_ (by simp)
      intro x hx
      rw [List.mem_singleton] at hx
      subst hx
      exact le_refl _
  exact ⟨hadm,
    (top_by_margin_amended _ 5 2 _ hadm).2.2 _ (List.mem_cons_self _ _) (by decide)⟩

end VapeStore
